import Mathlib

/-!
Verification development for the Mental-Health-Assistant chat application
(`streamlit_app_Version4.py`).  The reproducible core of the program is
embedded shallowly: the crisis keyword detector, the canned crisis
response, the provider-error fallback, conversation initialization,
the clear-conversation action, and the per-turn control flow of `main`
(append user message, crisis check, bounded history window, provider
call, append assistant message).  UI rendering and configuration file
parsing are out of scope, as is the external provider, which is modelled
by the outcome of its single call (a returned completion or a raised
exception converted to its message string).
-/

namespace MHA

/-- Message roles used by the application (`"system"`, `"user"`,
`"assistant"` strings in the Python dictionaries). -/
inductive Role where
  | system : Role
  | user : Role
  | assistant : Role
deriving DecidableEq

/-- A chat message: a `{"role": ..., "content": ...}` dictionary. -/
structure Message where
  role : Role
  content : String
deriving DecidableEq

/-- The configuration record loaded from `config.toml`: app text, crisis
contact numbers and model parameters.  Read-only after load. -/
structure Config where
  title : String
  warning_message : String
  crisis_hotline : String
  crisis_text : String
  default_model : String
  max_tokens : Nat
  temperature : Rat
  background_color : String

/-- Outcome of the single external completion-provider call made inside
`get_ai_response`: either the completion text, or a raised exception
carrying its message `str(e)`. -/
inductive ProviderResult where
  | ok : String → ProviderResult
  | error : String → ProviderResult
deriving DecidableEq

/-- `isPref p l` holds when the character list `p` is an initial segment
of `l` (helper for Python's substring operator `in`). -/
def isPref : List Char → List Char → Bool
  | [], _ => true
  | _ :: _, [] => false
  | a :: as, b :: bs => a == b && isPref as bs

/-- `hasSub p l` embeds Python's `p in l` on strings viewed as character
lists: `p` occurs contiguously somewhere inside `l`. -/
def hasSub (p : List Char) : List Char → Bool
  | [] => isPref p []
  | b :: bs => isPref p (b :: bs) || hasSub p bs

/-- `text.lower()`: lowercase every character. -/
def lower (s : String) : String := ⟨s.data.map Char.toLower⟩

/-- The fixed crisis keyword list of `contains_crisis_keywords`. -/
def crisis_keywords : List String :=
  ["kill myself", "suicide", "end it all", "want to die",
   "harm myself", "self harm", "hurt myself", "not want to live"]

/-- `contains_crisis_keywords(text)`: lowercase the text and test whether
any keyword of the fixed list occurs in it as a substring. -/
def contains_crisis_keywords (text : String) : Bool :=
  crisis_keywords.any (fun keyword => hasSub keyword.data (lower text).data)

/-- The system prompt interpolating the configured crisis hotline and
warning message (from `initialize_session_state`). -/
def system_prompt (cfg : Config) : String :=
  "\n        You are a helpful, empathetic mental health information assistant. \n        \n        YOUR ROLE:\n        - Provide general psychoeducation about mental health topics\n        - Offer supportive, validating responses\n        - Suggest evidence-based coping strategies\n        - Help users understand common mental health concepts\n        \n        CRITICAL SAFETY RULES:\n        - You are NOT a licensed therapist or crisis counselor\n        - You cannot provide diagnoses or treatment plans\n        - If a user mentions self-harm, suicide, or immediate danger, you MUST:\n          1. Acknowledge their pain\n          2. Provide the crisis hotline: "
    ++ cfg.crisis_hotline
    ++ "\n          3. Encourage them to contact emergency services if in immediate danger\n          4. Keep the response brief and focused on safety\n        \n        Always include this disclaimer in your first response: \""
    ++ cfg.warning_message
    ++ "\"\n        "

/-- The initial assistant greeting of `initialize_session_state`. -/
def initial_greeting (cfg : Config) : String :=
  "Hello! I\x27m here to provide general mental health information and support. "
    ++ cfg.warning_message
    ++ " How can I help you today?"

/-- `initialize_session_state`: the fresh conversation, a system message
followed by the assistant greeting. -/
def initialize_session_state (cfg : Config) : List Message :=
  [⟨Role.system, system_prompt cfg⟩,
   ⟨Role.assistant, initial_greeting cfg⟩]

/-- `get_ai_response(messages)`: return the provider's completion text,
or on any raised exception the user-facing fallback string carrying the
exception message.  Total: it never propagates the exception. -/
def get_ai_response : ProviderResult → String
  | ProviderResult.ok text => text
  | ProviderResult.error e =>
      "I\x27m having trouble responding right now. Please try again later. Error: " ++ e

/-- `handle_crisis_response()`: the fixed safety template interpolating
the configured crisis hotline and crisis text line. -/
def handle_crisis_response (cfg : Config) : String :=
  "\n    I hear that you\x27re in tremendous pain, and I\x27m deeply concerned about your safety.\n\n    **Please reach out for immediate help:**\n    - **Crisis Hotline:** "
    ++ cfg.crisis_hotline
    ++ "\n    - **Crisis Text Line:** "
    ++ cfg.crisis_text
    ++ "\n    - **Emergency Services:** 911\n\n    You don\x27t have to go through this alone. There are people who want to help you right now.\n    "

/-- The "Clear Conversation" button handler: keep `messages[0]` and
append a fresh greeting.  `none` models the `IndexError` Python would
raise on an empty list. -/
def clear_conversation (msgs : List Message) : Option (List Message) :=
  match msgs with
  | [] => none
  | m0 :: _ =>
      some [m0, ⟨Role.assistant, "Conversation cleared. How can I help you today?"⟩]

/-- Result of one chat turn of `main`: the new conversation, the
assistant reply shown to the user, and the message window handed to the
provider (`none` when the provider was not invoked at all). -/
structure TurnResult where
  messages : List Message
  reply : String
  providerWindow : Option (List Message)
deriving DecidableEq

/-- One chat-input turn of `main`: append the user message; if it
contains crisis keywords reply with the canned crisis response without
touching the provider; otherwise hand the last six messages
(`messages[-6:]`) to the provider and reply with its (fallback-wrapped)
result; finally append the assistant reply. -/
def run_turn (cfg : Config) (msgs : List Message) (prompt : String)
    (pr : ProviderResult) : TurnResult :=
  let msgs1 := msgs ++ [⟨Role.user, prompt⟩]
  if contains_crisis_keywords prompt then
    let ai := handle_crisis_response cfg
    ⟨msgs1 ++ [⟨Role.assistant, ai⟩], ai, none⟩
  else
    let recent := msgs1.drop (msgs1.length - 6)
    let ai := get_ai_response pr
    ⟨msgs1 ++ [⟨Role.assistant, ai⟩], ai, some recent⟩

/-- The conversation states reachable in a session: the initial state,
and closure under chat turns (with any provider outcome) and the clear
action. -/
inductive Reachable (cfg : Config) : List Message → Prop where
  | init : Reachable cfg (initialize_session_state cfg)
  | turn : ∀ msgs prompt pr, Reachable cfg msgs →
      Reachable cfg (run_turn cfg msgs prompt pr).messages
  | clearStep : ∀ msgs msgs2, Reachable cfg msgs →
      clear_conversation msgs = some msgs2 → Reachable cfg msgs2

/-- The system message carried at index 0 of every conversation. -/
def system_message (cfg : Config) : Message :=
  ⟨Role.system, system_prompt cfg⟩

/-- A concrete configuration used to exercise the definitions. -/
def cfg0 : Config :=
  ⟨"Mental Health Assistant", "This assistant provides general information only.",
   "988", "741741", "gpt-4", 500, 0.7, "#f0f2f6"⟩

/-- The fresh two-message conversation for `cfg0`. -/
def msgs2 : List Message := initialize_session_state cfg0

/-- The conversation after one non-crisis turn (4 messages). -/
def msgs4 : List Message := (run_turn cfg0 msgs2 "u1t" (ProviderResult.ok "r1")).messages

/-- The conversation after two non-crisis turns (6 messages). -/
def msgs6 : List Message := (run_turn cfg0 msgs4 "u2t" (ProviderResult.ok "r2")).messages

/-- The conversation after three non-crisis turns (8 messages). -/
def msgs8 : List Message := (run_turn cfg0 msgs6 "u3t" (ProviderResult.ok "r3")).messages

/-- The conversation after four non-crisis turns (10 messages). -/
def msgs10 : List Message := (run_turn cfg0 msgs8 "u4t" (ProviderResult.ok "r4")).messages

/-- The window `messages[-6:]` produced by a fifth non-crisis turn taken
from the 6-message conversation `msgs6`: the system message is gone. -/
def win7 : List Message :=
  [⟨Role.assistant, initial_greeting cfg0⟩, ⟨Role.user, "u1t"⟩, ⟨Role.assistant, "r1"⟩,
   ⟨Role.user, "u2t"⟩, ⟨Role.assistant, "r2"⟩, ⟨Role.user, "what a nice day"⟩]

/-- The window `messages[-6:]` produced by a fifth non-crisis turn taken
from the 10-message conversation `msgs10`: it opens with the assistant
reply `"r2"` while the user message `"u2t"` that it answered is cut off. -/
def win11 : List Message :=
  [⟨Role.assistant, "r2"⟩, ⟨Role.user, "u3t"⟩, ⟨Role.assistant, "r3"⟩,
   ⟨Role.user, "u4t"⟩, ⟨Role.assistant, "r4"⟩, ⟨Role.user, "tell me more"⟩]

/-- Correctness of the prefix matcher: `isPref p l` holds exactly when
`l` starts with `p`. -/
theorem isPref_iff (p l : List Char) : isPref p l = true ↔ ∃ t, l = p ++ t := by
  induction p generalizing l with
  | nil => simp [isPref]
  | cons a as ih =>
    cases l with
    | nil => simp [isPref]
    | cons b bs =>
      simp only [isPref, Bool.and_eq_true, beq_iff_eq, ih]
      constructor
      · rintro ⟨rfl, t, rfl⟩
        exact ⟨t, rfl⟩
      · rintro ⟨t, h⟩
        injection h with h1 h2
        exact ⟨h1.symm, t, h2⟩

/-- Correctness of the substring matcher: `hasSub p l` holds exactly when
`p` occurs contiguously inside `l` (Python's `p in l`). -/
theorem hasSub_iff (p l : List Char) : hasSub p l = true ↔ ∃ l1 l2, l = l1 ++ p ++ l2 := by
  induction l with
  | nil =>
    simp only [hasSub, isPref_iff]
    constructor
    · rintro ⟨t, ht⟩
      exact ⟨[], t, by simpa using ht⟩
    · rintro ⟨l1, l2, h⟩
      rcases List.append_eq_nil.1 (List.append_assoc l1 p l2 ▸ h.symm) with ⟨h1, h2⟩
      rcases List.append_eq_nil.1 h2 with ⟨h3, h4⟩
      exact ⟨l2, by simp [h3, h4]⟩
  | cons b bs ih =>
    simp only [hasSub, Bool.or_eq_true, isPref_iff, ih]
    constructor
    · rintro (⟨t, ht⟩ | ⟨l1, l2, h⟩)
      · exact ⟨[], t, by simpa using ht⟩
      · exact ⟨b :: l1, l2, by simp [h]⟩
    · rintro ⟨l1, l2, h⟩
      cases l1 with
      | nil => exact Or.inl ⟨l2, by simpa using h⟩
      | cons x xs =>
        right
        injection h with h1 h2
        exact ⟨xs, l2, h2⟩

/-- C2: `contains_crisis_keywords text` is true if and only if some phrase
of the fixed crisis-keyword list is a substring of the lowercased text;
consequently it is true for text containing any configured phrase in any
letter case (second conjunct), and false for text containing none (the
right-to-left contrapositive of the first conjunct). -/
theorem contains_crisis_keywords_spec (text : String) :
    (contains_crisis_keywords text = true ↔
      ∃ k ∈ crisis_keywords, ∃ l1 l2, (lower text).data = l1 ++ k.data ++ l2) ∧
    (∀ k ∈ crisis_keywords, ∀ l1 mid l2,
      text.data = l1 ++ mid ++ l2 → mid.map Char.toLower = k.data →
      contains_crisis_keywords text = true) := by
  have hiff : contains_crisis_keywords text = true ↔
      ∃ k ∈ crisis_keywords, ∃ l1 l2, (lower text).data = l1 ++ k.data ++ l2 := by
    rw [contains_crisis_keywords, List.any_eq_true]
    constructor
    · rintro ⟨k, hk, hsub⟩
      exact ⟨k, hk, (hasSub_iff _ _).1 hsub⟩
    · rintro ⟨k, hk, h⟩
      exact ⟨k, hk, (hasSub_iff _ _).2 h⟩
  refine ⟨hiff, ?_⟩
  intro k hk l1 mid l2 hsplit hmap
  apply hiff.2
  refine ⟨k, hk, l1.map Char.toLower, l2.map Char.toLower, ?_⟩
  show text.data.map Char.toLower = _
  rw [hsplit]
  simp [hmap]

/-- C2 witness: the specification instantiated at the spec's own example
input, which contains a crisis phrase in upper case. -/
theorem contains_crisis_keywords_spec_witness :
    (contains_crisis_keywords "I want to KILL MYSELF" = true ↔
      ∃ k ∈ crisis_keywords, ∃ l1 l2,
        (lower "I want to KILL MYSELF").data = l1 ++ k.data ++ l2) ∧
    (∀ k ∈ crisis_keywords, ∀ l1 mid l2,
      ("I want to KILL MYSELF" : String).data = l1 ++ mid ++ l2 →
      mid.map Char.toLower = k.data →
      contains_crisis_keywords "I want to KILL MYSELF" = true) :=
  contains_crisis_keywords_spec "I want to KILL MYSELF"

/-- String concatenation concatenates the underlying character lists. -/
theorem data_append (a b : String) : (a ++ b).data = a.data ++ b.data := rfl

/-- In a five-part concatenation, the second and fourth parts occur as
substrings of the whole. -/
theorem append5_sub (a b c d e : String) :
    (∃ l1 l2, (a ++ b ++ c ++ d ++ e).data = l1 ++ b.data ++ l2) ∧
    (∃ l1 l2, (a ++ b ++ c ++ d ++ e).data = l1 ++ d.data ++ l2) := by
  constructor
  · exact ⟨a.data, c.data ++ d.data ++ e.data, by simp [data_append, List.append_assoc]⟩
  · exact ⟨a.data ++ b.data ++ c.data, e.data, by simp [data_append, List.append_assoc]⟩

/-- C5: for every config, the crisis response text contains the
configured crisis hotline and crisis text line verbatim as substrings. -/
theorem handle_crisis_response_contains (cfg : Config) :
    (∃ l1 l2, (handle_crisis_response cfg).data = l1 ++ cfg.crisis_hotline.data ++ l2) ∧
    (∃ l1 l2, (handle_crisis_response cfg).data = l1 ++ cfg.crisis_text.data ++ l2) := by
  unfold handle_crisis_response
  exact append5_sub _ cfg.crisis_hotline _ cfg.crisis_text _

/-- C6: for every config, `initialize_session_state` produces a
conversation whose first element has role system and whose second has
role assistant (the greeting). -/
theorem initialize_session_state_roles (cfg : Config) :
    (initialize_session_state cfg).map Message.role = [Role.system, Role.assistant] := rfl

/-- C7: for every non-empty conversation, the clear action yields the
two-element conversation made of the original first message, unchanged,
followed by the fresh assistant greeting. -/
theorem clear_conversation_spec (msgs : List Message) (h : msgs ≠ []) :
    clear_conversation msgs =
      some [msgs.head h,
            ⟨Role.assistant, "Conversation cleared. How can I help you today?"⟩] := by
  cases msgs with
  | nil => exact absurd rfl h
  | cons m0 rest => rfl

/-- C7 witness: clearing the fresh conversation of `cfg0` keeps its
system message and replaces the rest with the clear greeting. -/
theorem clear_conversation_spec_witness :
    initialize_session_state cfg0 ≠ [] ∧
    clear_conversation (initialize_session_state cfg0) =
      some [system_message cfg0,
            ⟨Role.assistant, "Conversation cleared. How can I help you today?"⟩] :=
  ⟨by simp [initialize_session_state], by
    exact clear_conversation_spec (initialize_session_state cfg0)
      (by simp [initialize_session_state])⟩

/-- C4: for every raised provider exception, `get_ai_response` returns
the fallback text, which starts with the recognizable marker and ends
with the exception message as diagnostic; being a total function into
strings, it never propagates the exception. -/
theorem get_ai_response_error_spec (e : String) :
    (∃ l2, (get_ai_response (ProviderResult.error e)).data =
      ("I\x27m having trouble responding right now. Please try again later. Error: " : String).data
        ++ l2) ∧
    (∃ l1, (get_ai_response (ProviderResult.error e)).data = l1 ++ e.data) :=
  ⟨⟨e.data, rfl⟩,
   ⟨("I\x27m having trouble responding right now. Please try again later. Error: " : String).data,
    rfl⟩⟩

/-- C4 witness: the fallback shape at a concrete exception message. -/
theorem get_ai_response_error_spec_witness :
    (∃ l2, (get_ai_response (ProviderResult.error "Connection error")).data =
      ("I\x27m having trouble responding right now. Please try again later. Error: " : String).data
        ++ l2) ∧
    (∃ l1, (get_ai_response (ProviderResult.error "Connection error")).data =
      l1 ++ ("Connection error" : String).data) :=
  get_ai_response_error_spec "Connection error"

/-- C1: whenever the crisis detector flags the submitted prompt, the
turn returns the crisis template, the provider window is `none` (the
provider call is unreachable on that branch), and the whole turn result
is independent of the provider outcome — in particular of any exception
it might have raised. -/
theorem run_turn_crisis_spec (cfg : Config) (msgs : List Message) (prompt : String)
    (pr : ProviderResult) (h : contains_crisis_keywords prompt = true) :
    (run_turn cfg msgs prompt pr).providerWindow = none ∧
    (run_turn cfg msgs prompt pr).reply = handle_crisis_response cfg ∧
    (∀ pr2, run_turn cfg msgs prompt pr2 = run_turn cfg msgs prompt pr) := by
  refine ⟨?_, ?_, ?_⟩ <;> simp [run_turn, h]

/-- C1 witness: a crisis turn on the fresh conversation with a failing
provider still returns the template and no provider window. -/
theorem run_turn_crisis_spec_witness :
    (run_turn cfg0 msgs2 "I want to KILL MYSELF" (ProviderResult.error "boom")).providerWindow
      = none ∧
    (run_turn cfg0 msgs2 "I want to KILL MYSELF" (ProviderResult.error "boom")).reply
      = handle_crisis_response cfg0 ∧
    (∀ pr2, run_turn cfg0 msgs2 "I want to KILL MYSELF" pr2
      = run_turn cfg0 msgs2 "I want to KILL MYSELF" (ProviderResult.error "boom")) :=
  run_turn_crisis_spec cfg0 msgs2 "I want to KILL MYSELF" (ProviderResult.error "boom")
    (by decide)

/-- C10: crisis detection is applied only to the newly submitted prompt:
even when some earlier message of the conversation contains a crisis
phrase, a non-crisis prompt proceeds to the provider path (the provider
window is populated and the reply is the provider's, possibly
fallback-wrapped, text). -/
theorem run_turn_ignores_history_spec (cfg : Config) (msgs : List Message)
    (prompt : String) (pr : ProviderResult) (m : Message) (_hm : m ∈ msgs)
    (_hcrisis : contains_crisis_keywords m.content = true)
    (hprompt : contains_crisis_keywords prompt = false) :
    (run_turn cfg msgs prompt pr).providerWindow.isSome = true ∧
    (run_turn cfg msgs prompt pr).reply = get_ai_response pr := by
  constructor <;> simp [run_turn, hprompt]

/-- C10 witness: a conversation whose history holds a crisis message,
followed by a benign prompt, still reaches the provider. -/
theorem run_turn_ignores_history_spec_witness :
    (run_turn cfg0 [⟨Role.system, "S"⟩, ⟨Role.user, "I think about suicide"⟩]
      "thanks for the help" (ProviderResult.ok "take care")).providerWindow.isSome = true ∧
    (run_turn cfg0 [⟨Role.system, "S"⟩, ⟨Role.user, "I think about suicide"⟩]
      "thanks for the help" (ProviderResult.ok "take care")).reply
      = get_ai_response (ProviderResult.ok "take care") :=
  run_turn_ignores_history_spec cfg0 _ "thanks for the help" (ProviderResult.ok "take care")
    ⟨Role.user, "I think about suicide"⟩ (by decide) (by decide) (by decide)

/-- Dropping strictly fewer elements than the length leaves a non-empty
suffix with the same last element. -/
theorem drop_nonempty_getLast {α : Type} (l : List α) (k : Nat) (hk : k < l.length) :
    l.drop k ≠ [] ∧ (l.drop k).getLast? = l.getLast? := by
  have hlen := List.length_drop k l
  have hne : l.drop k ≠ [] := by
    intro hnil
    rw [hnil] at hlen
    simp at hlen
    omega
  refine ⟨hne, ?_⟩
  have h1 := List.getLast?_append_of_ne_nil (l.take k) hne
  rw [List.take_append_drop] at h1
  exact h1.symm

/-- C9: on every non-crisis turn the window handed to the provider is
non-empty and ends with exactly the user message appended for this turn. -/
theorem run_turn_window_last_user_spec (cfg : Config) (msgs : List Message)
    (prompt : String) (pr : ProviderResult)
    (hprompt : contains_crisis_keywords prompt = false) :
    ∃ w, (run_turn cfg msgs prompt pr).providerWindow = some w ∧
      w ≠ [] ∧ w.getLast? = some ⟨Role.user, prompt⟩ := by
  have hk : (msgs ++ [(⟨Role.user, prompt⟩ : Message)]).length - 6
      < (msgs ++ [(⟨Role.user, prompt⟩ : Message)]).length := by
    simp
    omega
  obtain ⟨hne, hlast⟩ := drop_nonempty_getLast _ _ hk
  refine ⟨(msgs ++ [(⟨Role.user, prompt⟩ : Message)]).drop
    ((msgs ++ [(⟨Role.user, prompt⟩ : Message)]).length - 6), ?_, hne, ?_⟩
  · simp [run_turn, hprompt]
  · rw [hlast]
    simp

/-- C9 witness: the third turn from `msgs4` hands the provider a window
ending with the just-typed user message. -/
theorem run_turn_window_last_user_spec_witness :
    ∃ w, (run_turn cfg0 msgs4 "how are you" (ProviderResult.ok "fine")).providerWindow
        = some w ∧
      w ≠ [] ∧ w.getLast? = some ⟨Role.user, "how are you"⟩ :=
  run_turn_window_last_user_spec cfg0 msgs4 "how are you" (ProviderResult.ok "fine")
    (by decide)

/-- Every reachable conversation is the system message followed by
messages none of which has role system. -/
theorem reachable_shape (cfg : Config) (msgs : List Message) (h : Reachable cfg msgs) :
    ∃ rest, msgs = system_message cfg :: rest ∧ ∀ m ∈ rest, m.role ≠ Role.system := by
  induction h with
  | init =>
    refine ⟨[⟨Role.assistant, initial_greeting cfg⟩], rfl, ?_⟩
    intro m hm
    simp at hm
    subst hm
    simp
  | turn msgs prompt pr hr ih =>
    obtain ⟨rest, hshape, hroles⟩ := ih
    subst hshape
    have hmsgs : (run_turn cfg (system_message cfg :: rest) prompt pr).messages
        = (system_message cfg :: rest) ++ [⟨Role.user, prompt⟩,
            ⟨Role.assistant, (run_turn cfg (system_message cfg :: rest) prompt pr).reply⟩] := by
      by_cases hc : contains_crisis_keywords prompt = true
      · simp [run_turn, hc]
      · simp [run_turn, hc]
    rw [hmsgs]
    refine ⟨rest ++ [⟨Role.user, prompt⟩,
      ⟨Role.assistant, (run_turn cfg (system_message cfg :: rest) prompt pr).reply⟩],
      by simp, ?_⟩
    intro m hm
    rcases List.mem_append.1 hm with h1 | h2
    · exact hroles m h1
    · simp at h2
      rcases h2 with h2 | h2 <;> (subst h2; simp)
  | clearStep msgs msgs2 hr hc ih =>
    obtain ⟨rest, hshape, hroles⟩ := ih
    subst hshape
    simp [clear_conversation] at hc
    subst hc
    refine ⟨[⟨Role.assistant, "Conversation cleared. How can I help you today?"⟩], rfl, ?_⟩
    intro m hm
    simp at hm
    subst hm
    simp

/-- C3 (amended): for every reachable conversation, the message at index
0 has role system and the clear action retains it; on a non-crisis turn
it is included in the window passed to the provider exactly when the
conversation together with the new user message has at most 6 messages
(so longer conversations lose it from the window). -/
theorem reachable_system_invariant (cfg : Config) (msgs : List Message)
    (h : Reachable cfg msgs) :
    msgs.head? = some (system_message cfg) ∧
    (∀ msgs2, clear_conversation msgs = some msgs2 →
      msgs2.head? = some (system_message cfg)) ∧
    (∀ prompt pr w, contains_crisis_keywords prompt = false →
      (run_turn cfg msgs prompt pr).providerWindow = some w →
      (system_message cfg ∈ w ↔ msgs.length + 1 ≤ 6)) := by
  obtain ⟨rest, hshape, hroles⟩ := reachable_shape cfg msgs h
  subst hshape
  refine ⟨rfl, ?_, ?_⟩
  · intro msgs2 hc
    simp [clear_conversation] at hc
    subst hc
    rfl
  · intro prompt pr w hnc hw
    have hpw : (run_turn cfg (system_message cfg :: rest) prompt pr).providerWindow
        = some (((system_message cfg :: rest) ++ [(⟨Role.user, prompt⟩ : Message)]).drop
            (((system_message cfg :: rest) ++ [(⟨Role.user, prompt⟩ : Message)]).length - 6)) := by
      simp [run_turn, hnc]
    rw [hpw] at hw
    injection hw with hw
    subst hw
    have hL : ((system_message cfg :: rest) ++ [(⟨Role.user, prompt⟩ : Message)]).length
        = rest.length + 2 := by simp
    rw [hL]
    have hcons : (system_message cfg :: rest) ++ [(⟨Role.user, prompt⟩ : Message)]
        = system_message cfg :: (rest ++ [(⟨Role.user, prompt⟩ : Message)]) := by simp
    rw [hcons]
    by_cases h6 : rest.length + 2 ≤ 6
    · rw [show rest.length + 2 - 6 = 0 by omega, List.drop_zero]
      simp only [List.length_cons]
      constructor
      · intro _
        omega
      · intro _
        exact List.mem_cons_self _ _
    · rw [show rest.length + 2 - 6 = (rest.length - 5) + 1 by omega, List.drop_succ_cons]
      simp only [List.length_cons]
      constructor
      · intro hmem
        exfalso
        have hmem2 : system_message cfg ∈ rest ++ [(⟨Role.user, prompt⟩ : Message)] :=
          List.drop_subset _ _ hmem
        rcases List.mem_append.1 hmem2 with h1 | h2
        · exact (hroles _ h1) rfl
        · simp [system_message] at h2
      · intro hle
        exact absurd (by omega : rest.length + 2 ≤ 6) h6

/-- C3 witness: the amended invariant instantiated at the fresh
conversation, which is reachable by construction. -/
theorem reachable_system_invariant_witness :
    (initialize_session_state cfg0).head? = some (system_message cfg0) ∧
    (∀ msgs2, clear_conversation (initialize_session_state cfg0) = some msgs2 →
      msgs2.head? = some (system_message cfg0)) ∧
    (∀ prompt pr w, contains_crisis_keywords prompt = false →
      (run_turn cfg0 (initialize_session_state cfg0) prompt pr).providerWindow = some w →
      (system_message cfg0 ∈ w ↔ (initialize_session_state cfg0).length + 1 ≤ 6)) :=
  reachable_system_invariant cfg0 (initialize_session_state cfg0) Reachable.init

/-- C3 counterexample: from the reachable 6-message conversation `msgs6`
a further non-crisis turn hands the provider the window `win7`, which no
longer contains the system message — the system message is dropped from
the provider window once the conversation is long enough. -/
theorem clipped_window_drops_system_message :
    Reachable cfg0 msgs6 ∧
    msgs6.head? = some (system_message cfg0) ∧
    contains_crisis_keywords "what a nice day" = false ∧
    (run_turn cfg0 msgs6 "what a nice day" (ProviderResult.ok "r4")).providerWindow
      = some win7 ∧
    system_message cfg0 ∉ win7 := by
  refine ⟨?_, rfl, by decide, rfl, by decide⟩
  exact Reachable.turn msgs4 "u2t" (ProviderResult.ok "r2")
    (Reachable.turn msgs2 "u1t" (ProviderResult.ok "r1") Reachable.init)

/-- C8 (amended): for a 10-message conversation on a non-crisis turn,
the window passed to the provider is a contiguous 6-message suffix of
the conversation extended with the new user message, in original order
and ending with that user message; the truncation boundary, however, can
split a user/assistant pair (see the counterexample). -/
theorem run_turn_window_of_ten_spec (cfg : Config) (msgs : List Message)
    (prompt : String) (pr : ProviderResult) (h10 : msgs.length = 10)
    (hnc : contains_crisis_keywords prompt = false) :
    ∃ w, (run_turn cfg msgs prompt pr).providerWindow = some w ∧
      w.length = 6 ∧
      (∃ l1, msgs ++ [(⟨Role.user, prompt⟩ : Message)] = l1 ++ w ∧ l1.length = 5) ∧
      w.getLast? = some ⟨Role.user, prompt⟩ := by
  have hL : (msgs ++ [(⟨Role.user, prompt⟩ : Message)]).length = 11 := by simp [h10]
  have hk : (msgs ++ [(⟨Role.user, prompt⟩ : Message)]).length - 6
      < (msgs ++ [(⟨Role.user, prompt⟩ : Message)]).length := by omega
  obtain ⟨hne, hlast⟩ := drop_nonempty_getLast _ _ hk
  refine ⟨(msgs ++ [(⟨Role.user, prompt⟩ : Message)]).drop
      ((msgs ++ [(⟨Role.user, prompt⟩ : Message)]).length - 6), ?_, ?_, ?_, ?_⟩
  · simp [run_turn, hnc]
  · rw [List.length_drop, hL]
  · refine ⟨(msgs ++ [(⟨Role.user, prompt⟩ : Message)]).take
        ((msgs ++ [(⟨Role.user, prompt⟩ : Message)]).length - 6),
      (List.take_append_drop _ _).symm, ?_⟩
    rw [List.length_take, hL]
    decide
  · rw [hlast]
    simp

/-- C8 witness: the amended windowing property at the concrete reachable
10-message conversation `msgs10`. -/
theorem run_turn_window_of_ten_spec_witness :
    ∃ w, (run_turn cfg0 msgs10 "tell me more" (ProviderResult.ok "r5")).providerWindow
        = some w ∧
      w.length = 6 ∧
      (∃ l1, msgs10 ++ [(⟨Role.user, "tell me more"⟩ : Message)] = l1 ++ w ∧ l1.length = 5) ∧
      w.getLast? = some ⟨Role.user, "tell me more"⟩ :=
  run_turn_window_of_ten_spec cfg0 msgs10 "tell me more" (ProviderResult.ok "r5")
    (by decide) (by decide)

/-- C8 counterexample: on the reachable 10-message conversation `msgs10`
a non-crisis turn produces the window `win11`, which contains the
assistant reply at index 5 of the conversation but not the user message
at index 4 that it answered — the truncation splits that user/assistant
pair. -/
theorem truncation_splits_pair :
    Reachable cfg0 msgs10 ∧
    msgs10.length = 10 ∧
    contains_crisis_keywords "tell me more" = false ∧
    (run_turn cfg0 msgs10 "tell me more" (ProviderResult.ok "r5")).providerWindow
      = some win11 ∧
    msgs10[4]? = some ⟨Role.user, "u2t"⟩ ∧
    msgs10[5]? = some ⟨Role.assistant, "r2"⟩ ∧
    (⟨Role.assistant, "r2"⟩ : Message) ∈ win11 ∧
    (⟨Role.user, "u2t"⟩ : Message) ∉ win11 := by
  refine ⟨?_, by decide, by decide, rfl, by decide, by decide, by decide, by decide⟩
  exact Reachable.turn msgs8 "u4t" (ProviderResult.ok "r4")
    (Reachable.turn msgs6 "u3t" (ProviderResult.ok "r3")
      (Reachable.turn msgs4 "u2t" (ProviderResult.ok "r2")
        (Reachable.turn msgs2 "u1t" (ProviderResult.ok "r1") Reachable.init)))

end MHA
